import Mathlib

/-!
Verification development for the BrickNPlateBot repository: a shallow
embedding of its lookup tools (`tools.py`), configuration state
(`config.py`), agent construction and dispatch (`agents.py`) and the
chat/event binding (`bot.py`), together with theorems settling the
specification's claims about them.

Python/JSON values are modelled by the inductive `Value`; Python dicts are
association lists of string keys; exceptions are modelled by `Except String`;
external HTTP services are modelled by environments of arbitrary
`Except`-valued response functions, so theorems quantify over every
behaviour of the services (any transport or HTTP error, any JSON payload).
-/

/-- A Python/JSON value: strings, integers, booleans, `None`/null, lists and
dicts (string-keyed association lists, preserving insertion order). -/
inductive Value where
  | str : String → Value
  | num : Int → Value
  | bool : Bool → Value
  | null : Value
  | list : List Value → Value
  | obj : List (String × Value) → Value

/-- Association-list lookup: Python `d[k]` / `d.get(k)` on a dict,
first binding wins (insertion order; our dicts never repeat keys). -/
def lookupObj (kvs : List (String × Value)) (k : String) : Option Value :=
  match kvs with
  | [] => Option.none
  | (k', v) :: rest => if k' = k then Option.some v else lookupObj rest k

/-- The keys of a mapping value (empty for non-mappings). -/
def objKeys : Value → List String
  | .obj kvs => kvs.map Prod.fst
  | _ => []

/-- Whether a value is a mapping (a Python dict). -/
def isObj : Value → Bool
  | .obj _ => true
  | _ => false

/-- Python truthiness: `bool(v)` for our value universe. -/
def truthy : Value → Bool
  | .str s => !(s.isEmpty)
  | .num n => !(n = 0)
  | .bool b => b
  | .null => false
  | .list l => !(l.isEmpty)
  | .obj kvs => !(kvs.isEmpty)

mutual

/-- Python `repr(v)`: strings quoted, containers rendered recursively. -/
def pyRepr : Value → String
  | .str s => "\x27" ++ s ++ "\x27"
  | .num n => toString n
  | .bool b => if b then "True" else "False"
  | .null => "None"
  | .list l => "[" ++ pyReprList l ++ "]"
  | .obj kvs => "\x7b" ++ pyReprObj kvs ++ "\x7d"

/-- Comma-separated `repr`s of a list's elements. -/
def pyReprList : List Value → String
  | [] => ""
  | [v] => pyRepr v
  | v :: rest => pyRepr v ++ ", " ++ pyReprList rest

/-- Comma-separated `repr`s of a dict's items. -/
def pyReprObj : List (String × Value) → String
  | [] => ""
  | [(k, v)] => "\x27" ++ k ++ "\x27: " ++ pyRepr v
  | (k, v) :: rest => "\x27" ++ k ++ "\x27: " ++ pyRepr v ++ ", " ++ pyReprObj rest

end

/-- Python `str(v)` as used by f-string interpolation: a string renders as
itself, everything else as its `repr`. -/
def pyStr : Value → String
  | .str s => s
  | v => pyRepr v

/-- The single-key error mapping `\x7b"error": msg\x7d` the tools return on
failure. -/
def errObj (msg : String) : Value :=
  Value.obj [("error", Value.str msg)]

/-- Python `s.lower()` (character-wise; the source lowercases usernames and
the channel name before comparing). -/
def pyLower (s : String) : String := String.mk (s.data.map Char.toLower)

/-- Whether `needle` matches `hay` from its start (helper for Python's
substring test). -/
def matchesAt : List Char → List Char → Bool
  | [], _ => true
  | _ :: _, [] => false
  | a :: as, b :: bs => a = b && matchesAt as bs

/-- Python `needle in hay` for strings: contiguous-substring occurrence. -/
def occursIn (needle : List Char) : List Char → Bool
  | [] => needle.isEmpty
  | c :: t => matchesAt needle (c :: t) || occursIn needle t

/-!
`tools.py`: the Rebrickable (Lego-catalog) tools. An HTTP call is modelled
as an `Except String Value`: `.ok v` is the parsed JSON body of a response
that passed `raise_for_status`, `.error e` is any exception raised by the
transport, by `raise_for_status` or by JSON decoding (all of which the
source catches in the same `except Exception` handler).
-/

/-- The external Lego-catalog service: the two GET endpoints the tools use,
each returning a parsed JSON body or raising. -/
structure LegoEnv where
  getSet : String → Except String Value
  searchSets : String → Except String Value

/-- `tools.get_lego_set_info`: GET the set record; on any exception return
the error mapping. -/
def get_lego_set_info (env : LegoEnv) (set_num : String) : Value :=
  match env.getSet set_num with
  | .ok v => v
  | .error _ => errObj ("Could not find information for set " ++ set_num)

/-- Python `response.json().get("results", [])`: `.get` on a non-dict raises
`AttributeError`. -/
def jsonGetResults (v : Value) : Except String Value :=
  match v with
  | .obj kvs => .ok ((lookupObj kvs "results").getD (Value.list []))
  | _ => .error "AttributeError: object has no attribute get"

/-- Python `results[:5]`: slicing is defined for lists and strings and raises
`TypeError` otherwise. -/
def sliceFive (v : Value) : Except String Value :=
  match v with
  | .list l => .ok (.list (l.take 5))
  | .str s => .ok (.str (String.mk (s.data.take 5)))
  | _ => .error "TypeError: object is not subscriptable"

/-- `tools.search_lego_sets`: GET the search endpoint, take the top 5 of the
`results` field; on any exception return the error mapping. -/
def search_lego_sets (env : LegoEnv) (query : String) : Value :=
  match env.searchSets query with
  | .error _ => errObj ("Could not find any sets matching '" ++ query ++ "'")
  | .ok j =>
    match jsonGetResults j with
    | .error _ => errObj ("Could not find any sets matching '" ++ query ++ "'")
    | .ok results =>
      match sliceFive results with
      | .error _ => errObj ("Could not find any sets matching '" ++ query ++ "'")
      | .ok top => top

/-!
`tools.py`: `get_stream_info` and `create_default_stream_info`. The
persisted YAML file is modelled by an `Option (List (String × Value))`:
`none` when the file does not exist, `some doc` when it holds the parsed
StreamInfoDocument. The function returns the updated file state together
with its result.
-/

/-- `tools.create_default_stream_info`: the default StreamInfoDocument. -/
def create_default_stream_info : List (String × Value) :=
  [ ("current_build", Value.obj
      [ ("set_number", Value.str "42115-1")
      , ("name", Value.str "Lamborghini Sián FKP 37")
      , ("progress", Value.str "50% complete")
      , ("started_on", Value.str "2025-04-01") ])
  , ("schedule", Value.obj
      [ ("monday", Value.str "No stream")
      , ("tuesday", Value.str "7pm-10pm EST")
      , ("wednesday", Value.str "No stream")
      , ("thursday", Value.str "7pm-10pm EST")
      , ("friday", Value.str "8pm-12am EST")
      , ("saturday", Value.str "3pm-7pm EST")
      , ("sunday", Value.str "No stream") ])
  , ("upcoming_builds", Value.list
      [ Value.obj [ ("set_number", Value.str "75192-1")
                  , ("name", Value.str "Millennium Falcon")
                  , ("planned_start", Value.str "April 15, 2025") ]
      , Value.obj [ ("set_number", Value.str "10294-1")
                  , ("name", Value.str "Titanic")
                  , ("planned_start", Value.str "May 1, 2025") ] ])
  , ("channel_info", Value.obj
      [ ("description", Value.str "Building Lego sets brick by brick! Join us for relaxing brick building sessions.")
      , ("rules", Value.list
          [ Value.str "Be kind and respectful"
          , Value.str "No spoilers about build techniques unless asked"
          , Value.str "Have fun and share your love for Lego" ]) ])
  , ("faq", Value.list
      [ Value.obj [ ("question", Value.str "What camera do you use?")
                  , ("answer", Value.str "I use a Sony a6400 for the main shot and a Sony a7III for closeups.") ]
      , Value.obj [ ("question", Value.str "Do you take build requests?")
                  , ("answer", Value.str "Yes! Subscribers can suggest builds for our community poll.") ]
      , Value.obj [ ("question", Value.str "How long have you been streaming?")
                  , ("answer", Value.str "I started streaming Lego builds in January 2024.") ] ]) ]

/-- `tools.get_stream_info`: load the document (writing the default document
to the file when it is absent); with no category — Python `if not category`,
so also with the empty-string category — return the whole document; with a
category that is a key return that single-entry mapping; otherwise return
the error mapping. Returns (new file state, result). -/
def get_stream_info (file : Option (List (String × Value))) (category : Option String) :
    Option (List (String × Value)) × Value :=
  let stream_info := match file with
    | Option.some doc => doc
    | Option.none => create_default_stream_info
  let file' := Option.some stream_info
  match category with
  | Option.none => (file', Value.obj stream_info)
  | Option.some c =>
    if c = "" then (file', Value.obj stream_info)
    else match lookupObj stream_info c with
      | Option.some v => (file', Value.obj [(c, v)])
      | Option.none => (file', errObj ("No information found for category '" ++ c ++ "'"))

/-!
`tools.py`: `get_twitch_user_info`. The Twitch API is modelled by an
environment of response functions; Python subscripting, indexing and the
`in` operator are modelled per value shape, raising (`.error`) exactly where
Python raises `KeyError`, `IndexError` or `TypeError`, all of which the
source's `except Exception` catches.
-/

/-- Python `v[k]` for a string key `k`: dict lookup (KeyError when absent),
TypeError on any non-dict. -/
def pySub (v : Value) (k : String) : Except String Value :=
  match v with
  | .obj kvs =>
    match lookupObj kvs k with
    | Option.some x => .ok x
    | Option.none => .error ("KeyError: '" ++ k ++ "'")
  | _ => .error "TypeError: value is not subscriptable by string"

/-- Python `v[0]`: first element of a list or string (IndexError when empty),
TypeError/KeyError on other shapes. -/
def pyIndexZero (v : Value) : Except String Value :=
  match v with
  | .list (x :: _) => .ok x
  | .list [] => .error "IndexError: list index out of range"
  | .str s =>
    match s.data with
    | c :: _ => .ok (.str (String.mk [c]))
    | [] => .error "IndexError: string index out of range"
  | .obj _ => .error "KeyError: 0"
  | _ => .error "TypeError: value is not subscriptable"

/-- Python `k in v` for a string `k`: key membership for dicts, element
membership for lists, substring test for strings, TypeError otherwise. -/
def pyInKey (k : String) (v : Value) : Except String Bool :=
  match v with
  | .obj kvs => .ok ((kvs.map Prod.fst).contains k)
  | .list l => .ok (l.any (fun x => match x with | .str s => s = k | _ => false))
  | .str s => .ok (occursIn k.data s.data)
  | _ => .error "TypeError: argument is not iterable"

/-- The external Twitch services: the OAuth token endpoint, the users
endpoint (keyed by login), the channels endpoint (keyed by broadcaster id)
and the followers endpoint (broadcaster id, user id). -/
structure TwitchEnv where
  postToken : Except String Value
  getUsers : String → Except String Value
  getChannels : Value → Except String Value
  getFollowers : Value → Value → Except String Value

/-- The process configuration the tool reads (`config.TWITCH_CHANNEL`). -/
structure TwitchConfig where
  twitchChannel : String

/-- Step 4's inner block (`if broadcaster_data["data"]:`): resolve the
broadcaster id and fetch the follow relationship. Returns
`Option.some following_since_value` — the local variable `following_since`
is defined exactly when this block runs to completion. -/
def followStep (env : TwitchEnv) (bData user_id : Value) : Except String (Option Value) :=
  match pyIndexZero bData with
  | .error e => .error e
  | .ok b0 =>
    match pySub b0 "id" with
    | .error e => .error e
    | .ok broadcaster_id =>
      match env.getFollowers broadcaster_id user_id with
      | .error e => .error e
      | .ok follow_data =>
        match pyInKey "data" follow_data with
        | .error e => .error e
        | .ok hasData =>
          if hasData then
            match pySub follow_data "data" with
            | .error e => .error e
            | .ok fd =>
              if truthy fd then
                match pyIndexZero fd with
                | .error e => .error e
                | .ok f0 =>
                  match pySub f0 "followed_at" with
                  | .error e => .error e
                  | .ok fa => .ok (Option.some fa)
              else .ok (Option.some Value.null)
          else .ok (Option.some Value.null)

/-- The value of the result's `following_since` field:
`following_since if 'following_since' in locals() else None`. -/
def followingSinceField : Option Value → Value
  | Option.some v => v
  | Option.none => Value.null

/-- The value of the result's `is_following` field:
`'following_since' in locals() and following_since is not None`. -/
def isFollowingFlag : Option Value → Bool
  | Option.some v => match v with | Value.null => false | _ => true
  | Option.none => false

/-- The body of `tools.get_twitch_user_info` up to its `except` handler:
either the composed result value (which may be the user-not-found error
mapping, returned without raising) or the exception the handler catches. -/
def twitch_lookup (env : TwitchEnv) (cfg : TwitchConfig) (username : String) :
    Except String Value :=
  match env.postToken with
  | .error e => .error e
  | .ok authJson =>
    match pySub authJson "access_token" with
    | .error e => .error e
    | .ok _token =>
      match env.getUsers (pyLower username) with
      | .error e => .error e
      | .ok user_data =>
        match pySub user_data "data" with
        | .error e => .error e
        | .ok dataVal =>
          if truthy dataVal = false then
            .ok (errObj ("User '" ++ username ++ "' not found on Twitch"))
          else
            match pyIndexZero dataVal with
            | .error e => .error e
            | .ok user_info =>
              match pySub user_info "id" with
              | .error e => .error e
              | .ok user_id =>
                match env.getChannels user_id with
                | .error e => .error e
                | .ok channelJson =>
                  match pySub channelJson "data" with
                  | .error e => .error e
                  | .ok chData =>
                    match (if truthy chData then pyIndexZero chData else .ok (Value.obj [])) with
                    | .error e => .error e
                    | .ok channel_data =>
                      match env.getUsers (String.mk ((pyLower cfg.twitchChannel).data.dropWhile (fun c => c = '#'))) with
                      | .error e => .error e
                      | .ok broadcasterJson =>
                        match pySub broadcasterJson "data" with
                        | .error e => .error e
                        | .ok bData =>
                          match (if truthy bData then followStep env bData user_id else .ok Option.none) with
                          | .error e => .error e
                          | .ok followRes =>
                            match pySub user_info "display_name" with
                            | .error e => .error e
                            | .ok display_name =>
                              match pySub user_info "profile_image_url" with
                              | .error e => .error e
                              | .ok profile_image =>
                                match pySub user_info "created_at" with
                                | .error e => .error e
                                | .ok account_created =>
                                  match pySub user_info "description" with
                                  | .error e => .error e
                                  | .ok descr =>
                                    match pySub user_info "broadcaster_type" with
                                    | .error e => .error e
                                    | .ok btype =>
                                      .ok (Value.obj
                                        [ ("username", display_name)
                                        , ("id", user_id)
                                        , ("profile_image", profile_image)
                                        , ("account_created", account_created)
                                        , ("description", descr)
                                        , ("broadcaster_type", btype)
                                        , ("channel", channel_data)
                                        , ("following_since", followingSinceField followRes)
                                        , ("is_following", Value.bool (isFollowingFlag followRes)) ])

/-- `tools.get_twitch_user_info`: run the multi-step lookup; any exception at
any step is caught and converted to the error mapping. -/
def get_twitch_user_info (env : TwitchEnv) (cfg : TwitchConfig) (username : String) : Value :=
  match twitch_lookup env cfg username with
  | .ok v => v
  | .error e => errObj ("Could not fetch information for user " ++ username ++ ": " ++ e)

/-!
`config.py`: the process-wide recent-event logs and their append functions.
`datetime.now()` is modelled by an explicit timestamp argument.
-/

/-- One entry of `recent_events["subscribers"]`. -/
structure SubEvent where
  username : String
  tier : Option String
  months : Option Int
  message : Option String
  timestamp : Nat
deriving DecidableEq

/-- One entry of `recent_events["raiders"]`. -/
structure RaidEvent where
  username : String
  viewers : Int
  timestamp : Nat
deriving DecidableEq

/-- The `recent_events` dict: its two lists. -/
structure RecentEvents where
  subscribers : List SubEvent
  raiders : List RaidEvent
deriving DecidableEq

/-- The initial `recent_events` value: both lists empty. -/
def emptyRecentEvents : RecentEvents :=
  { subscribers := [], raiders := [] }

/-- `config.add_subscriber`: append the entry, then `pop(0)` when the list
has grown past 10. -/
def add_subscriber (st : RecentEvents) (now : Nat) (username : String)
    (tier : Option String) (months : Option Int) (message : Option String) :
    RecentEvents :=
  let subs := st.subscribers ++
    [{ username := username, tier := tier, months := months,
       message := message, timestamp := now }]
  { st with subscribers := if subs.length > 10 then subs.drop 1 else subs }

/-- `config.add_raider`: append the entry, then `pop(0)` when the list has
grown past 10. -/
def add_raider (st : RecentEvents) (now : Nat) (username : String)
    (viewers : Int) : RecentEvents :=
  let rds := st.raiders ++ [{ username := username, viewers := viewers, timestamp := now }]
  { st with raiders := if rds.length > 10 then rds.drop 1 else rds }

/-- One call to either append function, with its arguments. -/
inductive EventCall where
  | sub (now : Nat) (username : String) (tier : Option String)
        (months : Option Int) (message : Option String)
  | raid (now : Nat) (username : String) (viewers : Int)

/-- Apply one call to the logs. -/
def applyCall (st : RecentEvents) : EventCall → RecentEvents
  | .sub now u t m msg => add_subscriber st now u t m msg
  | .raid now u v => add_raider st now u v

/-- Apply a sequence of calls starting from the given state. -/
def applyCalls (st : RecentEvents) : List EventCall → RecentEvents
  | [] => st
  | c :: rest => applyCalls (applyCall st c) rest

/-!
`agents.py`: the two agent constructions. `get_bot_tools` is modelled as
the list of tool registrations (name and description, in source order);
an agent executor is modelled by its configuration: tool list, whether a
conversation memory is attached, and the iteration cap.
-/

/-- One `StructuredTool.from_function` registration of `tools.get_bot_tools`. -/
structure ToolSpec where
  name : String
  descr : String
deriving DecidableEq

/-- `tools.get_bot_tools`: the four tool registrations, in source order. -/
def get_bot_tools : List ToolSpec :=
  [ { name := "get_lego_set_info"
    , descr := "Get detailed information about a specific Lego set by set number" }
  , { name := "search_lego_sets"
    , descr := "Search for Lego sets by name or theme" }
  , { name := "get_twitch_user_info"
    , descr := "Get information about a Twitch user in the context of this channel" }
  , { name := "get_stream_info"
    , descr := "Get information about the stream like schedule, current build, etc." } ]

/-- An `AgentExecutor` configuration: the fields of the constructions in
`agents.py` that the claims are about. -/
structure AgentConfig where
  tools : List ToolSpec
  hasMemory : Bool
  maxIterations : Nat
deriving DecidableEq

/-- `agents.create_chat_agent`: all four tools, a conversation-buffer
memory, `max_iterations=3`. -/
def create_chat_agent : AgentConfig :=
  { tools := get_bot_tools, hasMemory := true, maxIterations := 3 }

/-- `agents.create_event_agent`: `get_bot_tools()[3:]` (the stream-info tool
only), no memory, `max_iterations=2`. -/
def create_event_agent : AgentConfig :=
  { tools := get_bot_tools.drop 3, hasMemory := false, maxIterations := 2 }

/-!
The dispatch loop. Modelled from the spec: the bounded-iteration
tool-calling loop that `AgentExecutor` (a library external to this
repository) runs around the model — §4.2's state machine
`awaiting_model_decision → \x7btool_call → execute_tool →
awaiting_model_decision\x7d | final_answer`, with the iteration ceiling
forcing termination to a final text. The repository's own code contributes
only the caps (`max_iterations=3` and `2`).
-/

/-- One model decision: a final answer, or a request for one tool call. -/
inductive AgentDecision where
  | finalAnswer (text : String)
  | toolCall (toolName : String) (arg : Value)

/-- Modelled from the spec: the bounded dispatch loop. `model` maps the
working scratchpad (the tool calls made so far with their results) to the
next decision; `execTool` executes one tool call. Returns the final text
and the number of model iterations used. -/
def dispatch_loop (model : List (String × Value) → AgentDecision)
    (execTool : String → Value → Value) :
    Nat → List (String × Value) → String × Nat
  | 0, _ => ("Agent stopped due to iteration limit or time limit.", 0)
  | n + 1, scratch =>
    match model scratch with
    | .finalAnswer t => (t, 1)
    | .toolCall toolName arg =>
      let r := execTool toolName arg
      let rest := dispatch_loop model execTool n (scratch ++ [(toolName, r)])
      (rest.1, rest.2 + 1)

/-!
`agents.py`: `process_chat_message` and `process_event`. The awaited
executor invocation (`ainvoke` plus the `result["output"]` access) is
modelled by an `invoke : String → Except String String` parameter: `.ok`
is the produced output text, `.error` carries `str(e)` for any exception
raised during the call.
-/

/-- `agents.process_chat_message`: format the message, invoke the chat
agent, and on any exception return the apology echoing the error string. -/
def process_chat_message (invoke : String → Except String String)
    (username message : String) : String :=
  match invoke (username ++ ": " ++ message) with
  | .ok out => out
  | .error e =>
    "Sorry, I encountered an error while processing your message! Error: " ++ e

/-- The event description `process_event` builds for each event type. -/
def eventDescription (event_type username : String)
    (details : List (String × Value)) : String :=
  if event_type = "subscription" then
    username ++ " has subscribed with tier " ++
      pyStr ((lookupObj details "tier").getD (Value.str "1000")) ++ "."
  else if event_type = "resub" then
    username ++ " has resubscribed for " ++
      pyStr ((lookupObj details "months").getD (Value.num 1)) ++ " months with tier " ++
      pyStr ((lookupObj details "tier").getD (Value.str "1000")) ++ "."
  else if event_type = "raid" then
    username ++ " has raided the channel with " ++
      pyStr ((lookupObj details "viewers").getD (Value.num 0)) ++ " viewers."
  else
    username ++ " triggered an event of type " ++ event_type ++ "."

/-- The full instruction `process_event` sends to the event agent. -/
def eventPrompt (event_type username : String)
    (details : List (String × Value)) : String :=
  eventDescription event_type username details ++
    " Generate a personalized thank you message for this " ++ event_type ++
    " event. Make it brief, enthusiastic, and Lego-themed."

/-- The local variable `months` of the fallback branch:
`f"...-month " if event_type == "resub" and details.get('months') else ""`. -/
def resubMonthsText (event_type : String) (details : List (String × Value)) : String :=
  if event_type = "resub" ∧ truthy ((lookupObj details "months").getD Value.null) then
    pyStr ((lookupObj details "months").getD (Value.num 1)) ++ "-month "
  else ""

/-- The deterministic fallback text `process_event` returns when the
invocation raises. -/
def eventFallback (event_type username : String)
    (details : List (String × Value)) : String :=
  if event_type = "raid" then
    "Thanks for the amazing raid, " ++ username ++ ", with " ++
      pyStr ((lookupObj details "viewers").getD (Value.num 0)) ++
      " viewers! Welcome to our brick-building adventure!"
  else if event_type = "subscription" ∨ event_type = "resub" then
    "Thanks for the " ++ resubMonthsText event_type details ++ "sub, " ++ username ++
      "! You're an essential piece in our community!"
  else
    "Thanks, " ++ username ++ "! You're awesome!"

/-- `agents.process_event`: build the event description and prompt, invoke
the event agent, and on any exception return the deterministic fallback
built only from the local arguments. (`details = details or \x7b\x7d` is
modelled by taking the dict directly; a falsy `None` argument corresponds
to the empty dict.) -/
def process_event (invoke : String → Except String String)
    (event_type username : String) (details : List (String × Value)) : String :=
  match invoke (eventPrompt event_type username details) with
  | .ok out => out
  | .error _ => eventFallback event_type username details

/-!
`bot.py`: the chat/event binding's outgoing-text handling. Python strings
are sequences of code points, modelled as `List Char`; the reply produced
by the dispatcher is a parameter.
-/

/-- The truncation `bot.py` applies before every send:
`response[:497] + "..."` when the response exceeds 500 characters. -/
def truncate_for_twitch (response : List Char) : List Char :=
  if response.length > 500 then response.take 497 ++ ['.', '.', '.'] else response

/-- `BrickNPlateBot.event_message`, given the reply the dispatcher produced:
ignore the bot's own echoes, engage only when "bricknplatebot" occurs in the
lowercased content, and send the truncated reply. -/
def event_message_text (echo : Bool) (content reply : List Char) : Option (List Char) :=
  if echo then Option.none
  else if occursIn ("bricknplatebot".data) (content.map Char.toLower) then
    Option.some (truncate_for_twitch reply)
  else Option.none

/-- `BrickNPlateBot.event_subscribe`, given the reply `process_event`
produced: the text sent is the truncated reply. -/
def event_subscribe_text (reply : List Char) : List Char :=
  truncate_for_twitch reply

/-!
Helper lemmas shared by the claim theorems.
-/

/-- The subscriber entry `add_subscriber` appends. -/
def mkSubEvent (now : Nat) (u : String) (t : Option String) (m : Option Int)
    (msg : Option String) : SubEvent :=
  { username := u, tier := t, months := m, message := msg, timestamp := now }

/-- The raider entry `add_raider` appends. -/
def mkRaidEvent (now : Nat) (u : String) (v : Int) : RaidEvent :=
  { username := u, viewers := v, timestamp := now }

/-- Both recent-event logs hold at most 10 entries. -/
def logsCapped (st : RecentEvents) : Prop :=
  st.subscribers.length ≤ 10 ∧ st.raiders.length ≤ 10

lemma add_subscriber_subscribers (st : RecentEvents) (now : Nat) (u : String)
    (t : Option String) (m : Option Int) (msg : Option String) :
    (add_subscriber st now u t m msg).subscribers =
      (if (st.subscribers ++ [mkSubEvent now u t m msg]).length > 10 then
        (st.subscribers ++ [mkSubEvent now u t m msg]).drop 1
      else st.subscribers ++ [mkSubEvent now u t m msg]) := rfl

lemma add_subscriber_raiders (st : RecentEvents) (now : Nat) (u : String)
    (t : Option String) (m : Option Int) (msg : Option String) :
    (add_subscriber st now u t m msg).raiders = st.raiders := rfl

lemma add_raider_raiders (st : RecentEvents) (now : Nat) (u : String) (v : Int) :
    (add_raider st now u v).raiders =
      (if (st.raiders ++ [mkRaidEvent now u v]).length > 10 then
        (st.raiders ++ [mkRaidEvent now u v]).drop 1
      else st.raiders ++ [mkRaidEvent now u v]) := rfl

lemma add_raider_subscribers (st : RecentEvents) (now : Nat) (u : String) (v : Int) :
    (add_raider st now u v).subscribers = st.subscribers := rfl

lemma trimmedLenLe {α : Type} (l : List α) (e : α) (h : l.length ≤ 10) :
    (if (l ++ [e]).length > 10 then (l ++ [e]).drop 1 else l ++ [e]).length ≤ 10 := by
  split <;> rename_i hc <;>
    simp only [List.length_drop, List.length_append, List.length_cons,
      List.length_nil] at * <;> omega

lemma applyCall_capped (st : RecentEvents) (c : EventCall) (h : logsCapped st) :
    logsCapped (applyCall st c) := by
  obtain ⟨hs, hr⟩ := h
  cases c with
  | sub now u t m msg =>
    constructor
    · rw [applyCall, add_subscriber_subscribers]
      exact trimmedLenLe st.subscribers (mkSubEvent now u t m msg) hs
    · rw [applyCall, add_subscriber_raiders]; exact hr
  | raid now u v =>
    constructor
    · rw [applyCall, add_raider_subscribers]; exact hs
    · rw [applyCall, add_raider_raiders]
      exact trimmedLenLe st.raiders (mkRaidEvent now u v) hr

lemma applyCalls_capped (calls : List EventCall) (st : RecentEvents)
    (h : logsCapped st) : logsCapped (applyCalls st calls) := by
  induction calls generalizing st with
  | nil => exact h
  | cons c rest ih => exact ih (applyCall st c) (applyCall_capped st c h)

lemma add_subscriber_evicts (st : RecentEvents) (now : Nat) (u : String)
    (t : Option String) (m : Option Int) (msg : Option String)
    (h10 : st.subscribers.length = 10) :
    (add_subscriber st now u t m msg).subscribers =
      st.subscribers.drop 1 ++ [mkSubEvent now u t m msg] := by
  rw [add_subscriber_subscribers,
    if_pos (by simp only [List.length_append, List.length_cons, List.length_nil, h10]; omega)]
  exact List.drop_append_of_le_length (by omega)

lemma add_raider_evicts (st : RecentEvents) (now : Nat) (u : String) (v : Int)
    (h10 : st.raiders.length = 10) :
    (add_raider st now u v).raiders = st.raiders.drop 1 ++ [mkRaidEvent now u v] := by
  rw [add_raider_raiders,
    if_pos (by simp only [List.length_append, List.length_cons, List.length_nil, h10]; omega)]
  exact List.drop_append_of_le_length (by omega)

/-- Field access on a mapping value. -/
def valueGet (v : Value) (k : String) : Option Value :=
  match v with
  | .obj kvs => lookupObj kvs k
  | _ => Option.none

/-- The keys of `get_twitch_user_info`'s success result, in source order. -/
def twitchResultKeys : List String :=
  [ "username", "id", "profile_image", "account_created", "description"
  , "broadcaster_type", "channel", "following_since", "is_following" ]

/-- A model that requests a tool call on every step and never produces a
final answer. -/
def alwaysToolCall : List (String × Value) → AgentDecision :=
  fun _ => AgentDecision.toolCall "get_stream_info" Value.null

/-- An invocation whose underlying model call always raises. -/
def failInvoke : String → Except String String :=
  fun _ => Except.error "model backend unavailable"

/-- A Lego-catalog service on which the search endpoint succeeds with one
result. -/
def searchOkEnv : LegoEnv :=
  { getSet := fun _ => Except.error "ConnectionError"
  , searchSets := fun _ =>
      Except.ok (Value.obj [("results", Value.list
        [Value.obj [("name", Value.str "Millennium Falcon")]])]) }

/-- A Lego-catalog service on which every request raises. -/
def legoFailEnv : LegoEnv :=
  { getSet := fun _ => Except.error "ConnectionError"
  , searchSets := fun _ => Except.error "ConnectionError" }

/-- A Twitch service behaviour on which every step of the lookup succeeds
and the user follows the bot's channel. -/
def twitchHappyEnv : TwitchEnv :=
  { postToken := Except.ok (Value.obj [("access_token", Value.str "tok")])
  , getUsers := fun s =>
      if s = "alice" then
        Except.ok (Value.obj [("data", Value.list [Value.obj
          [ ("id", Value.str "1"), ("display_name", Value.str "Alice")
          , ("profile_image_url", Value.str "img"), ("created_at", Value.str "2020")
          , ("description", Value.str "d"), ("broadcaster_type", Value.str "") ]])])
      else if s = "brick" then
        Except.ok (Value.obj [("data", Value.list [Value.obj [("id", Value.str "2")]])])
      else Except.error "HTTPError: 404"
  , getChannels := fun _ =>
      Except.ok (Value.obj [("data", Value.list
        [Value.obj [("broadcaster_language", Value.str "en")]])])
  , getFollowers := fun _ _ =>
      Except.ok (Value.obj [("data", Value.list
        [Value.obj [("followed_at", Value.str "2021-01-01T00:00:00Z")]])]) }

/-- The bot's configured channel for the concrete runs. -/
def brickConfig : TwitchConfig := { twitchChannel := "#Brick" }

/-- A log state whose subscriber and raider lists both hold 10 entries. -/
def tenState : RecentEvents :=
  { subscribers :=
      [ mkSubEvent 0 "s0" Option.none Option.none Option.none
      , mkSubEvent 1 "s1" Option.none Option.none Option.none
      , mkSubEvent 2 "s2" Option.none Option.none Option.none
      , mkSubEvent 3 "s3" Option.none Option.none Option.none
      , mkSubEvent 4 "s4" Option.none Option.none Option.none
      , mkSubEvent 5 "s5" Option.none Option.none Option.none
      , mkSubEvent 6 "s6" Option.none Option.none Option.none
      , mkSubEvent 7 "s7" Option.none Option.none Option.none
      , mkSubEvent 8 "s8" Option.none Option.none Option.none
      , mkSubEvent 9 "s9" Option.none Option.none Option.none ]
  , raiders :=
      [ mkRaidEvent 0 "r0" 1, mkRaidEvent 1 "r1" 1, mkRaidEvent 2 "r2" 1
      , mkRaidEvent 3 "r3" 1, mkRaidEvent 4 "r4" 1, mkRaidEvent 5 "r5" 1
      , mkRaidEvent 6 "r6" 1, mkRaidEvent 7 "r7" 1, mkRaidEvent 8 "r8" 1
      , mkRaidEvent 9 "r9" 1 ] }

/-- Content of a chat message addressed to the bot. -/
def botMentionContent : List Char := "hey BrickNPlateBot what is up".data

/-- A 501-character reply. -/
def longReply : List Char := List.replicate 501 'a'

lemma truncate_length_le (r : List Char) : (truncate_for_twitch r).length ≤ 500 := by
  unfold truncate_for_twitch
  split <;> rename_i hc
  · simp only [List.length_append, List.length_take, List.length_cons, List.length_nil]
    omega
  · omega

lemma truncate_of_long (r : List Char) (h : r.length > 500) :
    truncate_for_twitch r = r.take 497 ++ ['.', '.', '.'] := by
  unfold truncate_for_twitch
  rw [if_pos h]

lemma matchesAt_self (l : List Char) : matchesAt l l = true := by
  induction l with
  | nil => rfl
  | cons c t ih => simp [matchesAt, ih]

lemma occursIn_append_self (n : List Char) (pre : List Char) :
    occursIn n (pre ++ n) = true := by
  induction pre with
  | nil =>
    cases n with
    | nil => rfl
    | cons c t => simp [occursIn, matchesAt_self]
  | cons c pre ih => simp [occursIn, ih]

/-- C2: starting from empty logs, after any sequence of `add_subscriber` /
`add_raider` calls each list holds at most 10 entries; appending to a list
that holds 10 entries evicts exactly the oldest entry: the result is the
old list without its head, followed by the new entry, so the new entry is
present, the length is again 10, and the old head (when distinct from the
remaining entries and the new entry) is absent. -/
theorem recent_event_logs_capped :
    (∀ calls : List EventCall,
        (applyCalls emptyRecentEvents calls).subscribers.length ≤ 10 ∧
        (applyCalls emptyRecentEvents calls).raiders.length ≤ 10) ∧
    (∀ (st : RecentEvents) (now : Nat) (u : String) (t : Option String)
        (m : Option Int) (msg : Option String),
        st.subscribers.length = 10 →
        (add_subscriber st now u t m msg).subscribers =
          st.subscribers.drop 1 ++ [mkSubEvent now u t m msg] ∧
        mkSubEvent now u t m msg ∈ (add_subscriber st now u t m msg).subscribers ∧
        (add_subscriber st now u t m msg).subscribers.length = 10 ∧
        (∀ old : SubEvent, st.subscribers.head? = Option.some old →
            old ∉ st.subscribers.drop 1 → old ≠ mkSubEvent now u t m msg →
            old ∉ (add_subscriber st now u t m msg).subscribers)) ∧
    (∀ (st : RecentEvents) (now : Nat) (u : String) (v : Int),
        st.raiders.length = 10 →
        (add_raider st now u v).raiders =
          st.raiders.drop 1 ++ [mkRaidEvent now u v] ∧
        mkRaidEvent now u v ∈ (add_raider st now u v).raiders ∧
        (add_raider st now u v).raiders.length = 10 ∧
        (∀ old : RaidEvent, st.raiders.head? = Option.some old →
            old ∉ st.raiders.drop 1 → old ≠ mkRaidEvent now u v →
            old ∉ (add_raider st now u v).raiders)) := by
  refine ⟨?_, ?_, ?_⟩
  · intro calls
    exact applyCalls_capped calls emptyRecentEvents ⟨by simp [emptyRecentEvents], by simp [emptyRecentEvents]⟩
  · intro st now u t m msg h10
    have he := add_subscriber_evicts st now u t m msg h10
    refine ⟨he, ?_, ?_, ?_⟩
    · rw [he]; exact List.mem_append_right _ (List.mem_singleton.mpr rfl)
    · rw [he]
      simp only [List.length_append, List.length_drop, List.length_cons,
        List.length_nil, h10]
    · intro old _ hnd hne
      rw [he]
      simp only [List.mem_append, List.mem_singleton]
      rintro (hc | hc)
      · exact hnd hc
      · exact hne hc
  · intro st now u v h10
    have he := add_raider_evicts st now u v h10
    refine ⟨he, ?_, ?_, ?_⟩
    · rw [he]; exact List.mem_append_right _ (List.mem_singleton.mpr rfl)
    · rw [he]
      simp only [List.length_append, List.length_drop, List.length_cons,
        List.length_nil, h10]
    · intro old _ hnd hne
      rw [he]
      simp only [List.mem_append, List.mem_singleton]
      rintro (hc | hc)
      · exact hnd hc
      · exact hne hc

/-- C2 witness: the eviction clause applied to a concrete 10-entry log. -/
theorem recent_event_logs_capped_witness :
    tenState.subscribers.length = 10 ∧
    (add_subscriber tenState 99 "new" Option.none Option.none Option.none).subscribers =
      tenState.subscribers.drop 1 ++ [mkSubEvent 99 "new" Option.none Option.none Option.none] ∧
    mkSubEvent 99 "new" Option.none Option.none Option.none ∈
      (add_subscriber tenState 99 "new" Option.none Option.none Option.none).subscribers ∧
    (add_subscriber tenState 99 "new" Option.none Option.none Option.none).subscribers.length = 10 ∧
    mkSubEvent 0 "s0" Option.none Option.none Option.none ∉
      (add_subscriber tenState 99 "new" Option.none Option.none Option.none).subscribers := by
  have h := recent_event_logs_capped.2.1 tenState 99 "new" Option.none Option.none Option.none
    (by decide)
  exact ⟨by decide, h.1, h.2.1, h.2.2.1,
    h.2.2.2 (mkSubEvent 0 "s0" Option.none Option.none Option.none)
      (by decide) (by decide) (by decide)⟩

/-- C3: every text the chat and event bindings send is at most 500
characters; when the dispatcher's reply exceeds 500 characters the sent
text is its first 497 characters followed by the three-character
ellipsis. -/
theorem outgoing_text_truncated :
    (∀ (echo : Bool) (content reply sent : List Char),
        event_message_text echo content reply = Option.some sent →
        sent.length ≤ 500 ∧
        (reply.length > 500 → sent = reply.take 497 ++ ['.', '.', '.'])) ∧
    (∀ reply : List Char,
        (event_subscribe_text reply).length ≤ 500 ∧
        (reply.length > 500 →
          event_subscribe_text reply = reply.take 497 ++ ['.', '.', '.'])) := by
  constructor
  · intro echo content reply sent h
    unfold event_message_text at h
    split at h
    · exact absurd h (by simp)
    · split at h
      · have hs : sent = truncate_for_twitch reply := by
          injection h with h2
          exact h2.symm
        subst hs
        exact ⟨truncate_length_le reply, truncate_of_long reply⟩
      · exact absurd h (by simp)
  · intro reply
    exact ⟨truncate_length_le reply, truncate_of_long reply⟩

/-- C3 witness: a concrete addressed message with a 501-character reply. -/
theorem outgoing_text_truncated_witness :
    event_message_text false botMentionContent longReply =
      Option.some (truncate_for_twitch longReply) ∧
    ((truncate_for_twitch longReply).length ≤ 500 ∧
      (longReply.length > 500 →
        truncate_for_twitch longReply = longReply.take 497 ++ ['.', '.', '.'])) :=
  ⟨rfl, outgoing_text_truncated.1 false botMentionContent longReply
    (truncate_for_twitch longReply) rfl⟩

lemma twitch_lookup_ok_cases (env : TwitchEnv) (cfg : TwitchConfig) (u : String)
    (v : Value) (h : twitch_lookup env cfg u = Except.ok v) :
    (∃ msg, v = errObj msg) ∨
    (∃ dn uid pi ac de bt cd fr,
      v = Value.obj
        [ ("username", dn), ("id", uid), ("profile_image", pi)
        , ("account_created", ac), ("description", de), ("broadcaster_type", bt)
        , ("channel", cd), ("following_since", followingSinceField fr)
        , ("is_following", Value.bool (isFollowingFlag fr)) ]) := by
  unfold twitch_lookup at h
  repeat' split at h
  all_goals injection h
  all_goals subst_vars
  all_goals first
    | exact Or.inl ⟨_, rfl⟩
    | exact Or.inr ⟨_, _, _, _, _, _, _, _, rfl⟩

lemma twitch_shape (env : TwitchEnv) (cfg : TwitchConfig) (u : String) :
    isObj (get_twitch_user_info env cfg u) = true ∧
    (objKeys (get_twitch_user_info env cfg u) = twitchResultKeys ∨
     objKeys (get_twitch_user_info env cfg u) = ["error"]) := by
  unfold get_twitch_user_info
  cases h : twitch_lookup env cfg u with
  | error e => exact ⟨rfl, Or.inr rfl⟩
  | ok v =>
    rcases twitch_lookup_ok_cases env cfg u v h with ⟨msg, rfl⟩ |
      ⟨dn, uid, pi, ac, de, bt, cd, fr, rfl⟩
    · exact ⟨rfl, Or.inr rfl⟩
    · exact ⟨rfl, Or.inl rfl⟩

lemma isFollowingFlag_iff (fr : Option Value) :
    isFollowingFlag fr = true ↔ followingSinceField fr ≠ Value.null := by
  cases fr with
  | none => simp [isFollowingFlag, followingSinceField]
  | some v => cases v <;> simp [isFollowingFlag, followingSinceField]

/-- C7: for every behaviour of the Twitch services, `get_twitch_user_info`
returns a mapping whose keys are exactly the nine documented result fields
(success), or a mapping whose sole key is `error` (any step failing, or the
user not found) — never a mix of partial results with an error. -/
theorem twitch_user_info_shape :
    ∀ (env : TwitchEnv) (cfg : TwitchConfig) (u : String),
      isObj (get_twitch_user_info env cfg u) = true ∧
      (objKeys (get_twitch_user_info env cfg u) = twitchResultKeys ∨
       objKeys (get_twitch_user_info env cfg u) = ["error"]) :=
  fun env cfg u => twitch_shape env cfg u

/-- C9: in every successful result of `get_twitch_user_info` both the
`is_following` and `following_since` fields are present, and `is_following`
is `true` exactly when `following_since` is not `None`. -/
theorem is_following_iff_following_since :
    ∀ (env : TwitchEnv) (cfg : TwitchConfig) (u : String),
      objKeys (get_twitch_user_info env cfg u) ≠ ["error"] →
      ∃ (b : Bool) (fv : Value),
        valueGet (get_twitch_user_info env cfg u) "is_following" =
          Option.some (Value.bool b) ∧
        valueGet (get_twitch_user_info env cfg u) "following_since" =
          Option.some fv ∧
        (b = true ↔ fv ≠ Value.null) := by
  intro env cfg u hne
  cases h : twitch_lookup env cfg u with
  | error e =>
    have hg : get_twitch_user_info env cfg u =
        errObj ("Could not fetch information for user " ++ u ++ ": " ++ e) := by
      unfold get_twitch_user_info; rw [h]
    rw [hg] at hne
    exact absurd rfl hne
  | ok v =>
    have hg : get_twitch_user_info env cfg u = v := by
      unfold get_twitch_user_info; rw [h]
    rw [hg] at hne ⊢
    rcases twitch_lookup_ok_cases env cfg u v h with ⟨msg, rfl⟩ |
      ⟨dn, uid, pi, ac, de, bt, cd, fr, rfl⟩
    · exact absurd rfl hne
    · exact ⟨isFollowingFlag fr, followingSinceField fr, rfl, rfl, isFollowingFlag_iff fr⟩

/-- C9 witness: a concrete fully successful lookup on which the conclusion
is delivered by the theorem. -/
theorem is_following_iff_following_since_witness :
    objKeys (get_twitch_user_info twitchHappyEnv brickConfig "Alice") ≠ ["error"] ∧
    (∃ (b : Bool) (fv : Value),
      valueGet (get_twitch_user_info twitchHappyEnv brickConfig "Alice") "is_following" =
        Option.some (Value.bool b) ∧
      valueGet (get_twitch_user_info twitchHappyEnv brickConfig "Alice") "following_since" =
        Option.some fv ∧
      (b = true ↔ fv ≠ Value.null)) :=
  ⟨by decide,
    is_following_iff_following_since twitchHappyEnv brickConfig "Alice" (by decide)⟩

lemma get_stream_info_isObj (file : Option (List (String × Value)))
    (cat : Option String) : isObj (get_stream_info file cat).2 = true := by
  unfold get_stream_info
  cases cat with
  | none => rfl
  | some c =>
    dsimp only
    split
    · rfl
    · split <;> rfl

lemma get_stream_info_file_stays (d : List (String × Value)) (cat : Option String) :
    (get_stream_info (Option.some d) cat).1 = Option.some d := by
  unfold get_stream_info
  cases cat with
  | none => rfl
  | some c =>
    dsimp only
    split
    · rfl
    · split <;> rfl

lemma get_stream_info_found (d : List (String × Value)) (c : String) (v : Value)
    (hc : c ≠ "") (hl : lookupObj d c = Option.some v) :
    (get_stream_info (Option.some d) (Option.some c)).2 = Value.obj [(c, v)] := by
  unfold get_stream_info
  dsimp only
  rw [if_neg hc, hl]

lemma get_stream_info_missing (d : List (String × Value)) (c : String)
    (hc : c ≠ "") (hl : lookupObj d c = Option.none) :
    objKeys (get_stream_info (Option.some d) (Option.some c)).2 = ["error"] := by
  unfold get_stream_info
  dsimp only
  rw [if_neg hc, hl]
  rfl

/-- C4 (amended): `get_stream_info` with no category — and, by Python
falsiness, also with the empty-string category — returns the full document;
with a non-empty category that is a key it returns the single-entry mapping;
with a non-empty category that is absent it returns the error mapping; on a
first call with no file it behaves exactly like a call on the persisted
default document and persists `create_default_stream_info`, and every call
on a persisted document leaves the file unchanged. -/
theorem stream_info_contract :
    (∀ cat, get_stream_info Option.none cat =
        get_stream_info (Option.some create_default_stream_info) cat) ∧
    (∀ cat, (get_stream_info Option.none cat).1 =
        Option.some create_default_stream_info) ∧
    (∀ d cat, (get_stream_info (Option.some d) cat).1 = Option.some d) ∧
    (∀ d, (get_stream_info (Option.some d) Option.none).2 = Value.obj d) ∧
    (∀ d, (get_stream_info (Option.some d) (Option.some "")).2 = Value.obj d) ∧
    (∀ d c v, c ≠ "" → lookupObj d c = Option.some v →
        (get_stream_info (Option.some d) (Option.some c)).2 = Value.obj [(c, v)]) ∧
    (∀ d c, c ≠ "" → lookupObj d c = Option.none →
        objKeys (get_stream_info (Option.some d) (Option.some c)).2 = ["error"]) := by
  refine ⟨fun cat => rfl, ?_, get_stream_info_file_stays, fun d => rfl, fun d => rfl,
    get_stream_info_found, get_stream_info_missing⟩
  intro cat
  have h : get_stream_info Option.none cat =
      get_stream_info (Option.some create_default_stream_info) cat := rfl
  rw [h]
  exact get_stream_info_file_stays create_default_stream_info cat

/-- C4 witness: the category clauses applied to the default document. -/
theorem stream_info_contract_witness :
    ("schedule" ≠ "") ∧ ("nonexistent" ≠ "") ∧
    lookupObj create_default_stream_info "nonexistent" = Option.none ∧
    (get_stream_info (Option.some create_default_stream_info)
        (Option.some "schedule")).2 =
      Value.obj [("schedule", Value.obj
        [ ("monday", Value.str "No stream")
        , ("tuesday", Value.str "7pm-10pm EST")
        , ("wednesday", Value.str "No stream")
        , ("thursday", Value.str "7pm-10pm EST")
        , ("friday", Value.str "8pm-12am EST")
        , ("saturday", Value.str "3pm-7pm EST")
        , ("sunday", Value.str "No stream") ])] ∧
    objKeys (get_stream_info (Option.some create_default_stream_info)
        (Option.some "nonexistent")).2 = ["error"] :=
  ⟨by decide, by decide, rfl,
    stream_info_contract.2.2.2.2.2.1 create_default_stream_info "schedule" _
      (by decide) rfl,
    stream_info_contract.2.2.2.2.2.2 create_default_stream_info "nonexistent"
      (by decide) rfl⟩

/-- C4 counterexample: the empty string is a category absent from the
document, yet `get_stream_info` returns the full document for it — not a
mapping containing the `error` key — because Python's `if not category`
treats `""` as "no category". -/
theorem stream_info_empty_category_counterexample :
    lookupObj create_default_stream_info "" = Option.none ∧
    (get_stream_info (Option.some create_default_stream_info)
        (Option.some "")).2 = Value.obj create_default_stream_info ∧
    "error" ∉ objKeys (get_stream_info (Option.some create_default_stream_info)
        (Option.some "")).2 :=
  ⟨rfl, rfl, by decide⟩

lemma get_lego_set_info_fail (env : LegoEnv) (s e : String)
    (h : env.getSet s = Except.error e) :
    get_lego_set_info env s = errObj ("Could not find information for set " ++ s) := by
  unfold get_lego_set_info
  rw [h]

lemma search_lego_sets_fail (env : LegoEnv) (q e : String)
    (h : env.searchSets q = Except.error e) :
    objKeys (search_lego_sets env q) = ["error"] := by
  unfold search_lego_sets
  rw [h]
  rfl

lemma search_lego_sets_ok (env : LegoEnv) (q : String)
    (kvs : List (String × Value)) (l : List Value)
    (h1 : env.searchSets q = Except.ok (Value.obj kvs))
    (h2 : lookupObj kvs "results" = Option.some (Value.list l)) :
    search_lego_sets env q = Value.list (l.take 5) := by
  unfold search_lego_sets
  rw [h1]
  dsimp only
  have hjr : jsonGetResults (Value.obj kvs) = Except.ok (Value.list l) := by
    unfold jsonGetResults
    dsimp only
    rw [h2]
    rfl
  rw [hjr]
  rfl

/-- C1 (amended): none of the four lookup tools ever raises — every
internal exception is caught and converted to the single-key `error`
mapping; in particular `get_lego_set_info` returns the `error` mapping on
any transport/HTTP failure (and otherwise the service's JSON payload
verbatim), `search_lego_sets` returns the `error` mapping on failure but on
success returns a LIST of at most five results rather than a mapping,
`get_twitch_user_info` always returns a mapping whose keys are exactly the
nine result fields or exactly `["error"]`, and `get_stream_info` always
returns a mapping, with sole key `error` exactly on a non-empty unknown
category. -/
theorem lookup_tools_error_contract :
    (∀ (env : LegoEnv) (s e : String), env.getSet s = Except.error e →
        get_lego_set_info env s =
          errObj ("Could not find information for set " ++ s)) ∧
    (∀ (env : LegoEnv) (q e : String), env.searchSets q = Except.error e →
        objKeys (search_lego_sets env q) = ["error"]) ∧
    (∀ (env : LegoEnv) (q : String) (kvs : List (String × Value)) (l : List Value),
        env.searchSets q = Except.ok (Value.obj kvs) →
        lookupObj kvs "results" = Option.some (Value.list l) →
        search_lego_sets env q = Value.list (l.take 5)) ∧
    (∀ (env : TwitchEnv) (cfg : TwitchConfig) (u : String),
        isObj (get_twitch_user_info env cfg u) = true ∧
        (objKeys (get_twitch_user_info env cfg u) = twitchResultKeys ∨
         objKeys (get_twitch_user_info env cfg u) = ["error"])) ∧
    (∀ (file : Option (List (String × Value))) (cat : Option String),
        isObj (get_stream_info file cat).2 = true) ∧
    (∀ (d : List (String × Value)) (c : String), c ≠ "" →
        lookupObj d c = Option.none →
        objKeys (get_stream_info (Option.some d) (Option.some c)).2 = ["error"]) :=
  ⟨get_lego_set_info_fail, search_lego_sets_fail, search_lego_sets_ok,
    twitch_shape, get_stream_info_isObj, get_stream_info_missing⟩

/-- C1 witness: a concrete failing transport for the set lookup. -/
theorem lookup_tools_error_contract_witness :
    legoFailEnv.getSet "75192" = Except.error "ConnectionError" ∧
    get_lego_set_info legoFailEnv "75192" =
      errObj ("Could not find information for set " ++ "75192") :=
  ⟨rfl, lookup_tools_error_contract.1 legoFailEnv "75192" "ConnectionError" rfl⟩

/-- C1 counterexample: on a service behaviour on which the search succeeds,
`search_lego_sets` returns a list, not a mapping — refuting "always returns
a mapping". -/
theorem search_lego_sets_list_counterexample :
    isObj (search_lego_sets searchOkEnv "star wars") = false ∧
    search_lego_sets searchOkEnv "star wars" =
      Value.list [Value.obj [("name", Value.str "Millennium Falcon")]] :=
  ⟨rfl, rfl⟩

lemma dispatch_loop_count (model : List (String × Value) → AgentDecision)
    (execTool : String → Value → Value) :
    ∀ (fuel : Nat) (scratch : List (String × Value)),
      (dispatch_loop model execTool fuel scratch).2 ≤ fuel := by
  intro fuel
  induction fuel with
  | zero => intro scratch; exact Nat.le_refl 0
  | succ n ih =>
    intro scratch
    unfold dispatch_loop
    cases model scratch with
    | finalAnswer t => exact Nat.succ_le_succ (Nat.zero_le n)
    | toolCall toolName arg =>
      dsimp only
      exact Nat.succ_le_succ (ih _)

/-- C5: for every model behaviour and tool behaviour, one chat-dispatcher
invocation performs at most 3 model iterations and one event-dispatcher
invocation at most 2 (the caps the repository passes as `max_iterations`);
with a model that requests a tool call on every step the loop still
terminates, returning the early-stopping text. -/
theorem dispatch_loop_iteration_caps :
    (∀ (model : List (String × Value) → AgentDecision)
        (execTool : String → Value → Value) (scratch : List (String × Value)),
        (dispatch_loop model execTool create_chat_agent.maxIterations scratch).2 ≤ 3 ∧
        (dispatch_loop model execTool create_event_agent.maxIterations scratch).2 ≤ 2) ∧
    (∀ (execTool : String → Value → Value) (scratch : List (String × Value)),
        (dispatch_loop alwaysToolCall execTool create_chat_agent.maxIterations scratch).1 =
          "Agent stopped due to iteration limit or time limit." ∧
        (dispatch_loop alwaysToolCall execTool create_event_agent.maxIterations scratch).1 =
          "Agent stopped due to iteration limit or time limit.") :=
  ⟨fun model execTool scratch =>
    ⟨dispatch_loop_count model execTool 3 scratch,
     dispatch_loop_count model execTool 2 scratch⟩,
   fun _ _ => ⟨rfl, rfl⟩⟩

/-- C8: the event agent is constructed with exactly one tool,
`get_stream_info`; the chat agent's other three tools are not available to
it; and it is built without conversation memory, while the chat agent has
all four tools, a memory, and cap 3. -/
theorem event_agent_single_tool :
    create_event_agent.tools.map ToolSpec.name = ["get_stream_info"] ∧
    create_event_agent.hasMemory = false ∧
    "get_lego_set_info" ∉ create_event_agent.tools.map ToolSpec.name ∧
    "search_lego_sets" ∉ create_event_agent.tools.map ToolSpec.name ∧
    "get_twitch_user_info" ∉ create_event_agent.tools.map ToolSpec.name ∧
    create_chat_agent.tools.map ToolSpec.name =
      ["get_lego_set_info", "search_lego_sets", "get_twitch_user_info",
       "get_stream_info"] ∧
    create_chat_agent.hasMemory = true ∧
    create_event_agent.maxIterations = 2 ∧
    create_chat_agent.maxIterations = 3 := by
  refine ⟨rfl, rfl, ?_, ?_, ?_, rfl, rfl, rfl, rfl⟩ <;> decide

lemma resubMonthsText_resub (d : List (String × Value)) (mv : Value)
    (hl : lookupObj d "months" = Option.some mv) (ht : truthy mv = true) :
    resubMonthsText "resub" d = pyStr mv ++ "-month " := by
  unfold resubMonthsText
  rw [hl]
  rw [if_pos ⟨rfl, ht⟩]
  rfl

/-- C6 (amended): any exception during a dispatch invocation is caught;
`process_chat_message` returns the apology string ending in the error's
message text, and `process_event` returns the deterministic templated
thank-you built only from its arguments — the raid template mentioning the
viewer count, the sub template mentioning the months only for a `resub`
with a truthy `months` detail, and for a plain `subscription` the months
are not mentioned. -/
theorem dispatch_failure_fallbacks :
    (∀ (invoke : String → Except String String) (u m e : String),
        invoke (u ++ ": " ++ m) = Except.error e →
        process_chat_message invoke u m =
          "Sorry, I encountered an error while processing your message! Error: " ++ e ∧
        occursIn e.data (process_chat_message invoke u m).data = true) ∧
    (∀ (invoke : String → Except String String) (u : String)
        (d : List (String × Value)) (e : String),
        invoke (eventPrompt "raid" u d) = Except.error e →
        process_event invoke "raid" u d =
          "Thanks for the amazing raid, " ++ u ++ ", with " ++
            pyStr ((lookupObj d "viewers").getD (Value.num 0)) ++
            " viewers! Welcome to our brick-building adventure!") ∧
    (∀ (invoke : String → Except String String) (u : String)
        (d : List (String × Value)) (e : String) (mv : Value),
        invoke (eventPrompt "resub" u d) = Except.error e →
        lookupObj d "months" = Option.some mv → truthy mv = true →
        process_event invoke "resub" u d =
          "Thanks for the " ++ (pyStr mv ++ "-month ") ++ "sub, " ++ u ++
            "! You're an essential piece in our community!") ∧
    (∀ (invoke : String → Except String String) (u : String)
        (d : List (String × Value)) (e : String),
        invoke (eventPrompt "subscription" u d) = Except.error e →
        process_event invoke "subscription" u d =
          "Thanks for the sub, " ++ u ++
            "! You're an essential piece in our community!") := by
  refine ⟨?_, ?_, ?_, ?_⟩
  · intro invoke u m e h
    have hp : process_chat_message invoke u m =
        "Sorry, I encountered an error while processing your message! Error: " ++ e := by
      unfold process_chat_message
      rw [h]
    refine ⟨hp, ?_⟩
    rw [hp, String.data_append]
    exact occursIn_append_self e.data _
  · intro invoke u d e h
    unfold process_event
    rw [h]
    rfl
  · intro invoke u d e mv h hl ht
    have h1 : process_event invoke "resub" u d = eventFallback "resub" u d := by
      unfold process_event
      rw [h]
    have h2 : eventFallback "resub" u d =
        "Thanks for the " ++ resubMonthsText "resub" d ++ "sub, " ++ u ++
          "! You're an essential piece in our community!" := rfl
    rw [h1, h2, resubMonthsText_resub d mv hl ht]
  · intro invoke u d e h
    unfold process_event
    rw [h]
    rfl

/-- C6 witness: a concrete raid event whose invocation raises. -/
theorem dispatch_failure_fallbacks_witness :
    failInvoke (eventPrompt "raid" "bob" [("viewers", Value.num 12)]) =
      Except.error "model backend unavailable" ∧
    process_event failInvoke "raid" "bob" [("viewers", Value.num 12)] =
      "Thanks for the amazing raid, " ++ "bob" ++ ", with " ++
        pyStr ((lookupObj [("viewers", Value.num 12)] "viewers").getD (Value.num 0)) ++
        " viewers! Welcome to our brick-building adventure!" :=
  ⟨rfl, dispatch_failure_fallbacks.2.1 failInvoke "bob" [("viewers", Value.num 12)]
    "model backend unavailable" rfl⟩

/-- C6 counterexample: for `event_type = "subscription"` the fallback does
not mention the months even when a months detail is present — the months
prefix is built only for `resub` — refuting "the subscription template
mentioning the months for 'subscription'/'resub'". -/
theorem subscription_fallback_months_counterexample :
    process_event failInvoke "subscription" "alice" [("months", Value.num 5)] =
      "Thanks for the sub, alice! You're an essential piece in our community!" ∧
    occursIn "5".data
      (process_event failInvoke "subscription" "alice" [("months", Value.num 5)]).data
      = false :=
  ⟨rfl, by decide⟩

/-- C10: `process_event` accepts any event type: for an unrecognized one it
builds the generic event description, invokes the dispatcher with it, and
returns its output on success and the fixed thank-you on any exception. -/
theorem process_event_unknown_type :
    ∀ (invoke : String → Except String String) (et u : String)
      (d : List (String × Value)),
      et ≠ "subscription" → et ≠ "resub" → et ≠ "raid" →
      eventDescription et u d =
        u ++ " triggered an event of type " ++ et ++ "." ∧
      (∀ out, invoke (eventPrompt et u d) = Except.ok out →
          process_event invoke et u d = out) ∧
      (∀ e, invoke (eventPrompt et u d) = Except.error e →
          process_event invoke et u d = "Thanks, " ++ u ++ "! You're awesome!") := by
  intro invoke et u d h1 h2 h3
  refine ⟨?_, ?_, ?_⟩
  · unfold eventDescription
    rw [if_neg h1, if_neg h2, if_neg h3]
  · intro out hok
    unfold process_event
    rw [hok]
  · intro e herr
    unfold process_event
    rw [herr]
    unfold eventFallback
    rw [if_neg h3, if_neg (fun hc => hc.elim h1 h2)]

/-- C10 witness: a concrete unrecognized event type whose invocation
raises. -/
theorem process_event_unknown_type_witness :
    ("greet" ≠ "subscription") ∧ ("greet" ≠ "resub") ∧ ("greet" ≠ "raid") ∧
    failInvoke (eventPrompt "greet" "bob" []) =
      Except.error "model backend unavailable" ∧
    process_event failInvoke "greet" "bob" [] =
      "Thanks, " ++ "bob" ++ "! You're awesome!" :=
  ⟨by decide, by decide, by decide, rfl,
    (process_event_unknown_type failInvoke "greet" "bob" []
      (by decide) (by decide) (by decide)).2.2 "model backend unavailable" rfl⟩
